import Mathlib

/-!
# Verification of the request-identity middleware

A shallow embedding of `packages/request-id/src/middleware.ts` together with
the generic `Handler`/`Middleware` wrapping convention.

Modelling choices:
* A JavaScript header object is an association list `List (String × String)`;
  reading `event.headers[k]` is `find?` on the key, yielding `Option String`
  (`none` models `undefined`).
* The JavaScript truthiness test on strings (`v || fallback`) is modelled by
  `jsOr`/`jsOrStr`: `undefined` and the empty string fall through to the
  fallback, everything else is kept.
* `String.prototype.slice(a, b)` on a non-negative range is `jsSlice`:
  drop `a` characters then take `b - a` (clamped at the end of the string).
* `String.prototype.replace('-', '')` replaces only the first occurrence,
  modelled by `removeFirst`.
* `Array.prototype.map(...).join('')` is concatenation of the mapped strings
  (`concatStrings`).
* The two 16-byte buffers filled by the random-byte source (`uuidv4(null, buf)`)
  are opaque inputs to the middleware, passed as explicit `List Nat` arguments.
* `async`/`await` failure propagation is modelled with `Except`: a rejected
  promise is `Except.error`, and `await` in a function without `try`/`catch`
  propagates the error.
* The object spread `{...a, ...b}` is `objSpread` on association lists with
  `Option String` values: keys of `b` overwrite keys of `a`, and a key whose
  value is `undefined` (here `none`) still occurs in the result object.
-/

/-- The resolved identifier bundle: the `requestIdentity` field of
`RequestIdentifierContext` in the source. `parentId` is optional. -/
structure RequestIdentity where
  correlationId : String
  parentId : Option String
  requestId : String
  sessionId : String
  spanId : String
  traceId : String
  deriving Repr, DecidableEq

/-- A header object with string values (the inbound `event.headers`). -/
abbrev Headers := List (String × String)

/-- A header object whose values may be `undefined` (the outbound headers:
the source writes `parent-id` keys even when `parentId` is `undefined`). -/
abbrev OptHeaders := List (String × Option String)

/-- The sixteen lowercase hexadecimal digit characters, in order. -/
def hexChars : List Char :=
  "0123456789abcdef".data

/-- The `byteToHex` lookup table of the source:
`(i + 0x100).toString(16).substr(1)` is the two-digit lowercase hex form of
`i` for `0 ≤ i ≤ 255`. -/
def byteToHex (b : Nat) : String :=
  String.mk [hexChars.getD (b / 16) '0', hexChars.getD (b % 16) '0']

/-- Concatenation of a list of strings: `array.join('')`. -/
def concatStrings : List String → String
  | [] => ""
  | s :: rest => s ++ concatStrings rest

/-- `bytesToHexString` of the source: `bytes.map((byte) => byteToHex[byte]).join('')`. -/
def bytesToHexString (bytes : List Nat) : String :=
  concatStrings (bytes.map byteToHex)

/-- `s.slice(a, b)` for `0 ≤ a ≤ b`, clamped at the end of the string. -/
def jsSlice (s : String) (a b : Nat) : String :=
  String.mk ((s.data.drop a).take (b - a))

/-- `formatHexAsUUID` of the source, with its exact slice indices
(0-8, 8-12, 12-16, 16-24, 24-36) joined by hyphens. -/
def formatHexAsUUID (hexString : String) : String :=
  jsSlice hexString 0 8 ++ "-" ++ jsSlice hexString 8 12 ++ "-" ++
    jsSlice hexString 12 16 ++ "-" ++ jsSlice hexString 16 24 ++ "-" ++
    jsSlice hexString 24 36

/-- `bytesToUuid` of the source: hex-encode then hyphenate. -/
def bytesToUuid (bytes : List Nat) : String :=
  formatHexAsUUID (bytesToHexString bytes)

/-- Remove the first occurrence of a character from a character list. -/
def removeFirst (c : Char) : List Char → List Char
  | [] => []
  | x :: xs => if x = c then xs else x :: removeFirst c xs

/-- `convertMaybeUuidToHexString` of the source: absent for
`undefined`/`null`/`''`; otherwise `uuid.replace('-', '')`, which replaces
only the FIRST hyphen occurrence. -/
def convertMaybeUuidToHexString : Option String → Option String
  | none => none
  | some s => if s = "" then none else some (String.mk (removeFirst '-' s.data))

/-- `convertMaybeHexStringToUuid` of the source: absent for
`undefined`/`null`/`''`; otherwise `formatHexAsUUID(hexString)`. -/
def convertMaybeHexStringToUuid : Option String → Option String
  | none => none
  | some s => if s = "" then none else some (formatHexAsUUID s)

/-- Reading `headers[k]` from a header object. -/
def getHeader (hs : Headers) (k : String) : Option String :=
  (hs.find? (fun p => p.1 == k)).map (fun p => p.2)

/-- JavaScript `a || b` on possibly-undefined strings: `undefined` and `''`
are falsy and fall through to `b`. -/
def jsOr (a b : Option String) : Option String :=
  match a with
  | none => b
  | some s => if s = "" then b else some s

/-- JavaScript `a || b` where the final fallback `b` is always a string. -/
def jsOrStr (a : Option String) (b : String) : String :=
  match a with
  | none => b
  | some s => if s = "" then b else s

/-- The resolution of the identifier bundle performed by
`_DefaultAPIGatewayProxyRequestIdentifyingMiddleware`, lines 66-119 of the
source: read the inbound keys, then evaluate each field's fallback chain.
`trace` and `span` are the two 16-byte buffers filled by `uuidv4(null, _)`
before resolution begins. -/
def resolveIdentity (trace span : List Nat) (hs : Headers) : RequestIdentity :=
  let correlationId := jsOr (getHeader hs "correlation-id") (getHeader hs "x-correlation-id")
  let parentId :=
    jsOr (jsOr (getHeader hs "parent-id") (getHeader hs "x-parent-id"))
      (getHeader hs "x-b3-parentspanid")
  let requestId := jsOr (getHeader hs "request-id") (getHeader hs "x-request-id")
  let sessionId := jsOr (getHeader hs "session-id") (getHeader hs "x-session-id")
  let spanId :=
    jsOr (jsOr (getHeader hs "span-id") (getHeader hs "x-span-id"))
      (getHeader hs "x-b3-spanid")
  let traceId :=
    jsOr (jsOr (getHeader hs "trace-id") (getHeader hs "x-trace-id"))
      (getHeader hs "x-b3-traceid")
  { correlationId :=
      jsOrStr (jsOr correlationId (convertMaybeHexStringToUuid traceId)) (bytesToUuid trace)
    parentId := jsOr parentId none
    requestId :=
      jsOrStr (jsOr requestId (jsOr correlationId (convertMaybeHexStringToUuid traceId)))
        (bytesToUuid trace)
    sessionId :=
      jsOrStr (jsOr sessionId (jsOr correlationId (convertMaybeHexStringToUuid traceId)))
        (bytesToUuid trace)
    spanId := jsOrStr spanId (bytesToHexString (span.take 8))
    traceId :=
      jsOrStr (jsOr traceId (convertMaybeUuidToHexString correlationId))
        (bytesToHexString trace) }

/-- The outbound `headers` object literal of the source, lines 121-137: each
bundle field written under its plain, `x-`-prefixed, and (for parent, span and
trace) `x-b3-` keys. The three `parentId` keys carry `undefined` when
`parentId` is absent. -/
def outboundHeaders (rid : RequestIdentity) : OptHeaders :=
  [("correlation-id", some rid.correlationId),
   ("x-correlation-id", some rid.correlationId),
   ("parent-id", rid.parentId),
   ("x-parent-id", rid.parentId),
   ("x-b3-parentspanid", rid.parentId),
   ("request-id", some rid.requestId),
   ("x-request-id", some rid.requestId),
   ("session-id", some rid.sessionId),
   ("x-session-id", some rid.sessionId),
   ("span-id", some rid.spanId),
   ("x-span-id", some rid.spanId),
   ("x-b3-spanid", some rid.spanId),
   ("trace-id", some rid.traceId),
   ("x-trace-id", some rid.traceId),
   ("x-b3-traceid", some rid.traceId)]

/-- An inbound event: a header object plus whatever other fields the event
carries (the source treats the event as `any` and reads only `.headers`). -/
structure Event (β : Type) where
  headers : Headers
  rest : β

/-- A handler result: an optional header object (`result.headers || {}` in the
source tolerates its absence) plus the rest of the result object. -/
structure Resp (α : Type) where
  headers : Option Headers
  rest : α

/-- The middleware's final response: `{...result, headers: merged}` — the
merged header object may carry `undefined` values, the rest of `result` is
kept by the shallow spread. -/
structure MergedResp (α : Type) where
  headers : OptHeaders
  rest : α

/-- View a string-valued header object as one with possibly-undefined values. -/
def toOptHeaders (hs : Headers) : OptHeaders :=
  hs.map (fun p => (p.1, some p.2))

/-- Object spread `{...base, ...over}`: every key of `over` is present with
`over`'s value (even when that value is `undefined`); keys only in `base` keep
`base`'s value. -/
def objSpread (base over : OptHeaders) : OptHeaders :=
  base.filter (fun p => (over.find? (fun q => q.1 == p.1)).isNone) ++ over

/-- Property access `obj[k]` on a (possibly `undefined`-valued) header object:
`some v` when the key is present with value `v`, `none` when absent. -/
def objLookup (l : OptHeaders) (k : String) : Option (Option String) :=
  (l.find? (fun p => p.1 == k)).map (fun p => p.2)

/-- `return {...result, headers: {...(result.headers || {}), ...headers}}`
of the source, line 138. -/
def applyOutbound (rid : RequestIdentity) (r : Resp α) : MergedResp α :=
  { headers := objSpread (toOptHeaders (r.headers.getD [])) (outboundHeaders rid)
    rest := r.rest }

/-- `_DefaultAPIGatewayProxyRequestIdentifyingMiddleware` of the source:
generate the two buffers (passed here as the opaque arguments `trace` and
`span`), resolve the bundle, `await next(event)` — note the source passes only
the original event to `next` — and return the handler's result with the
outbound headers spread over its header map. A rejection of `next` propagates
(no `try`/`catch`). -/
def middleware (trace span : List Nat) (next : Event β → Except ε (Resp α))
    (event : Event β) : Except ε (MergedResp α) :=
  let rid := resolveIdentity trace span event.headers
  match next event with
  | Except.error e => Except.error e
  | Except.ok result => Except.ok (applyOutbound rid result)

/-- Stripping of ALL hyphens from a string: the "correct hyphen-stripping
inverse" the spec's round-trip property compares against. -/
def stripHyphens (s : String) : String :=
  String.mk (s.data.filter (fun c => !(c == '-')))

/-- The fifteen inbound header keys the middleware consults. -/
def consultedHeaderKeys : List String :=
  ["correlation-id", "x-correlation-id",
   "parent-id", "x-parent-id", "x-b3-parentspanid",
   "request-id", "x-request-id",
   "session-id", "x-session-id",
   "span-id", "x-span-id", "x-b3-spanid",
   "trace-id", "x-trace-id", "x-b3-traceid"]

/-! ## Helper lemmas -/

/-- `undefined || b` evaluates to `b`. -/
@[simp] theorem jsOr_none_left (b : Option String) : jsOr none b = b := rfl

/-- `undefined || b` evaluates to `b` when `b` is a plain string. -/
@[simp] theorem jsOrStr_none (b : String) : jsOrStr none b = b := rfl

/-- Converting an absent hex string yields an absent identifier. -/
@[simp] theorem convertMaybeHexStringToUuid_none :
    convertMaybeHexStringToUuid none = none := rfl

/-- Converting an absent identifier yields an absent hex string. -/
@[simp] theorem convertMaybeUuidToHexString_none :
    convertMaybeUuidToHexString none = none := rfl

/-- Each byte's hex image is two characters long. -/
theorem byteToHex_length (b : Nat) : (byteToHex b).length = 2 := rfl

/-- Concatenation unfolds one string at a time. -/
theorem concatStrings_cons (s : String) (l : List String) :
    concatStrings (s :: l) = s ++ concatStrings l := rfl

/-- The hex encoding of a byte list is two characters per byte. -/
theorem bytesToHexString_length (bs : List Nat) :
    (bytesToHexString bs).length = 2 * bs.length := by
  induction bs with
  | nil => rfl
  | cons b t ih =>
    simp only [bytesToHexString, List.map_cons, concatStrings_cons, String.length_append] at *
    rw [ih]
    simp [byteToHex_length]
    omega

/-- The hyphenated form is never empty: it contains its four hyphens. -/
theorem formatHexAsUUID_length_pos (s : String) : 0 < (formatHexAsUUID s).length := by
  have hd : ("-" : String).length = 1 := rfl
  simp only [formatHexAsUUID, String.length_append, hd]
  omega

/-- A string of positive length is not the empty string. -/
theorem String_ne_empty_of_length_pos {s : String} (h : 0 < s.length) : s ≠ "" := by
  intro he
  subst he
  exact absurd h (by decide)

/-- A truthiness fallback whose terminal value is non-empty is non-empty. -/
theorem jsOrStr_ne_empty (a : Option String) {b : String} (hb : b ≠ "") :
    jsOrStr a b ≠ "" := by
  cases a with
  | none => exact hb
  | some s =>
    simp only [jsOrStr]
    split
    · exact hb
    · assumption

/-- A truthiness check with no fallback is either absent or non-empty. -/
theorem jsOr_none_right_cases (a : Option String) :
    jsOr a none = none ∨ ∃ s, jsOr a none = some s ∧ s ≠ "" := by
  cases a with
  | none => exact Or.inl rfl
  | some s =>
    simp only [jsOr]
    split
    · exact Or.inl rfl
    · exact Or.inr ⟨s, rfl, by assumption⟩

/-- Filtering by a predicate implied by the search predicate does not change
the result of `find?`. -/
theorem find?_filter_of_imp {α : Type} (p q : α → Bool) (l : List α)
    (h : ∀ x, p x = true → q x = true) :
    (l.filter q).find? p = l.find? p := by
  induction l with
  | nil => rfl
  | cons a t ih =>
    by_cases hpa : p a = true
    · have hqa := h a hpa
      simp [List.filter_cons, hqa, List.find?_cons, hpa, ih]
    · have hpa' : p a = false := by
        cases hv : p a
        · rfl
        · exact absurd hv hpa
      cases hqa : q a <;> simp [List.filter_cons, hqa, List.find?_cons, hpa', ih]

/-- Filtering away everything the search predicate accepts makes `find?` fail. -/
theorem find?_filter_none_of_imp {α : Type} (p q : α → Bool) (l : List α)
    (h : ∀ x, p x = true → q x = false) :
    (l.filter q).find? p = none := by
  rw [List.find?_eq_none]
  intro x hx
  rw [List.mem_filter] at hx
  intro hpx
  rw [h x hpx] at hx
  exact absurd hx.2 (by decide)

/-- Lookup on an object spread: a key of `over` wins, any other key falls
through to `base`. -/
theorem objLookup_objSpread (base over : OptHeaders) (k : String) :
    objLookup (objSpread base over) k =
      match objLookup over k with
      | some v => some v
      | none => objLookup base k := by
  unfold objLookup objSpread
  rw [List.find?_append]
  cases hov : over.find? (fun p => p.1 == k) with
  | some q =>
    have hnone : (base.filter (fun p => (over.find? (fun q => q.1 == p.1)).isNone)).find?
        (fun p => p.1 == k) = none := by
      apply find?_filter_none_of_imp
      intro x hx
      have hxk : x.1 = k := by
        simpa using hx
      rw [hxk, hov]
      rfl
    rw [hnone]
    rfl
  | none =>
    have hkeep : (base.filter (fun p => (over.find? (fun q => q.1 == p.1)).isNone)).find?
        (fun p => p.1 == k) = base.find? (fun p => p.1 == k) := by
      apply find?_filter_of_imp
      intro x hx
      have hxk : x.1 = k := by
        simpa using hx
      rw [hxk, hov]
      rfl
    rw [hkeep]
    cases base.find? (fun p => p.1 == k) <;> rfl

/-- The character data of the hyphenated form: the five slices of the input
with a hyphen between consecutive slices. -/
theorem formatHexAsUUID_data (s : String) :
    (formatHexAsUUID s).data =
      s.data.take 8 ++ '-' :: ((s.data.drop 8).take 4 ++ '-' :: ((s.data.drop 12).take 4 ++
        '-' :: ((s.data.drop 16).take 8 ++ '-' :: (s.data.drop 24).take 12))) := by
  have hd : ("-" : String).data = ['-'] := rfl
  simp [formatHexAsUUID, jsSlice, String.data_append, hd, List.append_assoc]

/-- The five slice windows 0-8, 8-12, 12-16, 16-24, 24-36 cover a
32-character list contiguously. -/
theorem split32 (l : List Char) (hl : l.length = 32) :
    l.take 8 ++ ((l.drop 8).take 4 ++ ((l.drop 12).take 4 ++
      ((l.drop 16).take 8 ++ (l.drop 24).take 12))) = l := by
  have h24 : (l.drop 24).take 12 = l.drop 24 := by
    apply List.take_of_length_le
    simp [List.length_drop, hl]
  have e16 : (l.drop 16).take 8 ++ l.drop 24 = l.drop 16 := by
    have hdd : l.drop 24 = (l.drop 16).drop 8 := by rw [List.drop_drop]
    rw [hdd, List.take_append_drop]
  have e12 : (l.drop 12).take 4 ++ l.drop 16 = l.drop 12 := by
    have hdd : l.drop 16 = (l.drop 12).drop 4 := by rw [List.drop_drop]
    rw [hdd, List.take_append_drop]
  have e8 : (l.drop 8).take 4 ++ l.drop 12 = l.drop 8 := by
    have hdd : l.drop 12 = (l.drop 8).drop 4 := by rw [List.drop_drop]
    rw [hdd, List.take_append_drop]
  rw [h24, e16, e12, e8, List.take_append_drop]

/-- No hexadecimal digit character is a hyphen. -/
theorem hexChar_beq_dash_false : ∀ c ∈ hexChars, (c == '-') = false := by decide

/-- Stripping all hyphens undoes hyphenation on a 32-character hyphen-free
(hexadecimal) input. -/
theorem stripHyphens_formatHexAsUUID (h : String) (hlen : h.data.length = 32)
    (hhex : ∀ c ∈ h.data, c ∈ hexChars) :
    stripHyphens (formatHexAsUUID h) = h := by
  have hfilter : ∀ (l : List Char), l ⊆ h.data →
      l.filter (fun c => !(c == '-')) = l := by
    intro l hsub
    apply List.filter_eq_self.mpr
    intro a ha
    have hb := hexChar_beq_dash_false a (hhex a (hsub ha))
    simp [hb]
  unfold stripHyphens
  rw [formatHexAsUUID_data]
  simp only [List.filter_append, List.filter_cons]
  norm_num
  rw [hfilter _ (List.take_subset _ _),
    hfilter _ ((List.take_subset _ _).trans (List.drop_subset _ _)),
    hfilter _ ((List.take_subset _ _).trans (List.drop_subset _ _)),
    hfilter _ ((List.take_subset _ _).trans (List.drop_subset _ _)),
    hfilter _ ((List.take_subset _ _).trans (List.drop_subset _ _))]
  rw [split32 h.data hlen]

/-! ## Claim theorems -/

/-- Claim C1 (code evaluation). The source computes the
`requestIdentifierContext` bundle but invokes the wrapped handler as
`next(event)` with only the original event: with an echo handler that returns
the event it was given, the middleware's result carries exactly the original
event, with no `requestIdentity` field attached (an `Event` has none). The
claim that the handler receives the bundle is contradicted by the code. -/
theorem middleware_passes_only_original_event (trace span : List Nat) (ev : Event β) :
    Except.map MergedResp.rest
        (middleware trace span
          (fun e => (Except.ok { headers := none, rest := e } : Except Unit (Resp (Event β)))) ev)
      = Except.ok ev := rfl

/-- Claim C2 (code evaluation). On a 32-character hexadecimal input the
source's `formatHexAsUUID` produces hyphen groups of lengths 8, 4, 4, 8, 8 —
its slice indices are 0-8, 8-12, 12-16, 16-24, 24-36 — not the canonical
8, 4, 4, 4, 12 the claim states. -/
theorem formatHexAsUUID_code_groups :
    formatHexAsUUID "00112233445566778899aabbccddeeff"
      = "00112233-4455-6677-8899aabb-ccddeeff" := by
  rfl

/-- Claim C3. When the inbound header map contains none of the fifteen
consulted identity keys, `correlationId`, `requestId` and `sessionId` all
equal the hyphenated form of the trace-origin buffer, `parentId` is absent,
and `spanId` (hex of the first 8 bytes of the span-origin buffer) and
`traceId` (hex of the full trace-origin buffer) are distinct synthesized
values. -/
theorem resolveIdentity_no_headers (trace span : List Nat) (hs : Headers)
    (htrace : trace.length = 16) (hspan : span.length = 16)
    (hnone : ∀ k ∈ consultedHeaderKeys, getHeader hs k = none) :
    (resolveIdentity trace span hs).correlationId = bytesToUuid trace ∧
      (resolveIdentity trace span hs).requestId = bytesToUuid trace ∧
      (resolveIdentity trace span hs).sessionId = bytesToUuid trace ∧
      (resolveIdentity trace span hs).parentId = none ∧
      (resolveIdentity trace span hs).spanId = bytesToHexString (List.take 8 span) ∧
      (resolveIdentity trace span hs).traceId = bytesToHexString trace ∧
      (resolveIdentity trace span hs).spanId ≠ (resolveIdentity trace span hs).traceId := by
  have h1 : getHeader hs "correlation-id" = none := hnone _ (by decide)
  have h2 : getHeader hs "x-correlation-id" = none := hnone _ (by decide)
  have h3 : getHeader hs "parent-id" = none := hnone _ (by decide)
  have h4 : getHeader hs "x-parent-id" = none := hnone _ (by decide)
  have h5 : getHeader hs "x-b3-parentspanid" = none := hnone _ (by decide)
  have h6 : getHeader hs "request-id" = none := hnone _ (by decide)
  have h7 : getHeader hs "x-request-id" = none := hnone _ (by decide)
  have h8 : getHeader hs "session-id" = none := hnone _ (by decide)
  have h9 : getHeader hs "x-session-id" = none := hnone _ (by decide)
  have h10 : getHeader hs "span-id" = none := hnone _ (by decide)
  have h11 : getHeader hs "x-span-id" = none := hnone _ (by decide)
  have h12 : getHeader hs "x-b3-spanid" = none := hnone _ (by decide)
  have h13 : getHeader hs "trace-id" = none := hnone _ (by decide)
  have h14 : getHeader hs "x-trace-id" = none := hnone _ (by decide)
  have h15 : getHeader hs "x-b3-traceid" = none := hnone _ (by decide)
  have hres : resolveIdentity trace span hs =
      { correlationId := bytesToUuid trace, parentId := none,
        requestId := bytesToUuid trace, sessionId := bytesToUuid trace,
        spanId := bytesToHexString (List.take 8 span),
        traceId := bytesToHexString trace } := by
    simp [resolveIdentity, h1, h2, h3, h4, h5, h6, h7, h8, h9, h10, h11, h12, h13, h14, h15]
  rw [hres]
  refine ⟨rfl, rfl, rfl, rfl, rfl, rfl, ?_⟩
  intro heq
  have hlen := congrArg String.length heq
  rw [bytesToHexString_length, bytesToHexString_length, List.length_take, hspan, htrace] at hlen
  exact absurd hlen (by decide)

/-- Witness for C3 at two concrete 16-byte buffers and the empty header map. -/
theorem resolveIdentity_no_headers_witness :
    (List.range 16).length = 16 ∧
      (List.replicate 16 (255 : Nat)).length = 16 ∧
      (∀ k ∈ consultedHeaderKeys, getHeader [] k = none) ∧
      ((resolveIdentity (List.range 16) (List.replicate 16 255) []).correlationId
          = bytesToUuid (List.range 16) ∧
        (resolveIdentity (List.range 16) (List.replicate 16 255) []).requestId
          = bytesToUuid (List.range 16) ∧
        (resolveIdentity (List.range 16) (List.replicate 16 255) []).sessionId
          = bytesToUuid (List.range 16) ∧
        (resolveIdentity (List.range 16) (List.replicate 16 255) []).parentId = none ∧
        (resolveIdentity (List.range 16) (List.replicate 16 255) []).spanId
          = bytesToHexString (List.take 8 (List.replicate 16 255)) ∧
        (resolveIdentity (List.range 16) (List.replicate 16 255) []).traceId
          = bytesToHexString (List.range 16) ∧
        (resolveIdentity (List.range 16) (List.replicate 16 255) []).spanId
          ≠ (resolveIdentity (List.range 16) (List.replicate 16 255) []).traceId) :=
  ⟨by decide, by decide, by decide,
    resolveIdentity_no_headers _ _ _ (by decide) (by decide) (by decide)⟩

/-- Claim C4. With `correlation-id` as the only inbound identity header,
carrying `"11111111-1111-1111-1111-111111111111"`, the resolved `requestId`
and `sessionId` equal that same value, and the resolved `traceId` equals the
value with only the FIRST hyphen removed (the implemented behavior of
`convertMaybeUuidToHexString`). -/
theorem resolveIdentity_correlation_only (trace span : List Nat) :
    (resolveIdentity trace span
          [("correlation-id", "11111111-1111-1111-1111-111111111111")]).requestId
        = "11111111-1111-1111-1111-111111111111" ∧
      (resolveIdentity trace span
          [("correlation-id", "11111111-1111-1111-1111-111111111111")]).sessionId
        = "11111111-1111-1111-1111-111111111111" ∧
      (resolveIdentity trace span
          [("correlation-id", "11111111-1111-1111-1111-111111111111")]).traceId
        = "111111111111-1111-1111-111111111111" :=
  ⟨rfl, rfl, rfl⟩

/-- Claim C5. Whatever the inbound header map, once resolution completes the
required fields `correlationId`, `requestId`, `sessionId`, `spanId` and
`traceId` are non-empty strings, and `parentId` is either absent or a
non-empty string. -/
theorem resolveIdentity_fields_nonempty (trace span : List Nat) (hs : Headers)
    (htrace : trace.length = 16) (hspan : span.length = 16) :
    (resolveIdentity trace span hs).correlationId ≠ "" ∧
      (resolveIdentity trace span hs).requestId ≠ "" ∧
      (resolveIdentity trace span hs).sessionId ≠ "" ∧
      (resolveIdentity trace span hs).spanId ≠ "" ∧
      (resolveIdentity trace span hs).traceId ≠ "" ∧
      ((resolveIdentity trace span hs).parentId = none ∨
        ∃ s, (resolveIdentity trace span hs).parentId = some s ∧ s ≠ "") := by
  have hfmt : bytesToUuid trace ≠ "" :=
    String_ne_empty_of_length_pos (formatHexAsUUID_length_pos _)
  have hspan8 : bytesToHexString (List.take 8 span) ≠ "" := by
    apply String_ne_empty_of_length_pos
    rw [bytesToHexString_length, List.length_take, hspan]
    decide
  have htr : bytesToHexString trace ≠ "" := by
    apply String_ne_empty_of_length_pos
    rw [bytesToHexString_length, htrace]
    decide
  exact ⟨jsOrStr_ne_empty _ hfmt, jsOrStr_ne_empty _ hfmt, jsOrStr_ne_empty _ hfmt,
    jsOrStr_ne_empty _ hspan8, jsOrStr_ne_empty _ htr, jsOr_none_right_cases _⟩

/-- Witness for C5 at concrete 16-byte buffers and a header map that supplies
a parent id. -/
theorem resolveIdentity_fields_nonempty_witness :
    (List.range 16).length = 16 ∧
      (List.replicate 16 (255 : Nat)).length = 16 ∧
      ((resolveIdentity (List.range 16) (List.replicate 16 255)
            [("parent-id", "p")]).correlationId ≠ "" ∧
        (resolveIdentity (List.range 16) (List.replicate 16 255)
            [("parent-id", "p")]).requestId ≠ "" ∧
        (resolveIdentity (List.range 16) (List.replicate 16 255)
            [("parent-id", "p")]).sessionId ≠ "" ∧
        (resolveIdentity (List.range 16) (List.replicate 16 255)
            [("parent-id", "p")]).spanId ≠ "" ∧
        (resolveIdentity (List.range 16) (List.replicate 16 255)
            [("parent-id", "p")]).traceId ≠ "" ∧
        ((resolveIdentity (List.range 16) (List.replicate 16 255)
              [("parent-id", "p")]).parentId = none ∨
          ∃ s, (resolveIdentity (List.range 16) (List.replicate 16 255)
              [("parent-id", "p")]).parentId = some s ∧ s ≠ "")) :=
  ⟨by decide, by decide,
    resolveIdentity_fields_nonempty _ _ _ (by decide) (by decide)⟩

/-- Claim C6. For every invocation, the outbound header object contains the
plain and the `x-`-prefixed key for every bundle field with identical values;
for `parentId`, `spanId` and `traceId` it additionally contains the
corresponding `x-b3-` distributed-tracing key, again with the same value. -/
theorem outboundHeaders_synonym_keys (trace span : List Nat) (hs : Headers) :
    objLookup (outboundHeaders (resolveIdentity trace span hs)) "correlation-id"
        = some (some (resolveIdentity trace span hs).correlationId) ∧
      objLookup (outboundHeaders (resolveIdentity trace span hs)) "x-correlation-id"
        = some (some (resolveIdentity trace span hs).correlationId) ∧
      objLookup (outboundHeaders (resolveIdentity trace span hs)) "parent-id"
        = some (resolveIdentity trace span hs).parentId ∧
      objLookup (outboundHeaders (resolveIdentity trace span hs)) "x-parent-id"
        = some (resolveIdentity trace span hs).parentId ∧
      objLookup (outboundHeaders (resolveIdentity trace span hs)) "x-b3-parentspanid"
        = some (resolveIdentity trace span hs).parentId ∧
      objLookup (outboundHeaders (resolveIdentity trace span hs)) "request-id"
        = some (some (resolveIdentity trace span hs).requestId) ∧
      objLookup (outboundHeaders (resolveIdentity trace span hs)) "x-request-id"
        = some (some (resolveIdentity trace span hs).requestId) ∧
      objLookup (outboundHeaders (resolveIdentity trace span hs)) "session-id"
        = some (some (resolveIdentity trace span hs).sessionId) ∧
      objLookup (outboundHeaders (resolveIdentity trace span hs)) "x-session-id"
        = some (some (resolveIdentity trace span hs).sessionId) ∧
      objLookup (outboundHeaders (resolveIdentity trace span hs)) "span-id"
        = some (some (resolveIdentity trace span hs).spanId) ∧
      objLookup (outboundHeaders (resolveIdentity trace span hs)) "x-span-id"
        = some (some (resolveIdentity trace span hs).spanId) ∧
      objLookup (outboundHeaders (resolveIdentity trace span hs)) "x-b3-spanid"
        = some (some (resolveIdentity trace span hs).spanId) ∧
      objLookup (outboundHeaders (resolveIdentity trace span hs)) "trace-id"
        = some (some (resolveIdentity trace span hs).traceId) ∧
      objLookup (outboundHeaders (resolveIdentity trace span hs)) "x-trace-id"
        = some (some (resolveIdentity trace span hs).traceId) ∧
      objLookup (outboundHeaders (resolveIdentity trace span hs)) "x-b3-traceid"
        = some (some (resolveIdentity trace span hs).traceId) :=
  ⟨rfl, rfl, rfl, rfl, rfl, rfl, rfl, rfl, rfl, rfl, rfl, rfl, rfl, rfl, rfl⟩

/-- Claim C7. When the wrapped handler returns a response, the middleware's
final response maps every identity header key to the resolved bundle's value
(overwriting any same-named header the handler set), maps every non-identity
key to whatever the handler's header map had, and preserves the non-header
part of the handler's result unchanged. -/
theorem middleware_overwrites_identity_headers {β α ε : Type} (trace span : List Nat)
    (ev : Event β) (r : Resp α) (final : MergedResp α)
    (hrun : middleware trace span (fun _ => (Except.ok r : Except ε (Resp α))) ev
      = Except.ok final) :
    (∀ (k : String) (v : Option String),
        objLookup (outboundHeaders (resolveIdentity trace span ev.headers)) k = some v →
          objLookup final.headers k = some v) ∧
      (∀ k : String,
        objLookup (outboundHeaders (resolveIdentity trace span ev.headers)) k = none →
          objLookup final.headers k = objLookup (toOptHeaders (r.headers.getD [])) k) ∧
      final.rest = r.rest := by
  have hfin : final = applyOutbound (resolveIdentity trace span ev.headers) r := by
    simp only [middleware] at hrun
    injection hrun with h
    exact h.symm
  subst hfin
  refine ⟨?_, ?_, rfl⟩
  · intro k v hk
    simp only [applyOutbound]
    rw [objLookup_objSpread, hk]
  · intro k hk
    simp only [applyOutbound]
    rw [objLookup_objSpread, hk]

/-- Witness for C7: a handler that already sets `trace-id` and a `foo` header;
the middleware run equals its merged result, and the merge facts hold. -/
theorem middleware_overwrites_identity_headers_witness :
    middleware [1, 2] [3, 4]
        (fun _ : Event Unit =>
          (Except.ok { headers := some [("trace-id", "zzz"), ("foo", "bar")], rest := () }
            : Except Unit (Resp Unit)))
        { headers := [], rest := () }
      = Except.ok (applyOutbound (resolveIdentity [1, 2] [3, 4] [])
          { headers := some [("trace-id", "zzz"), ("foo", "bar")], rest := () }) ∧
      ((∀ (k : String) (v : Option String),
          objLookup (outboundHeaders (resolveIdentity [1, 2] [3, 4] [])) k = some v →
            objLookup (applyOutbound (resolveIdentity [1, 2] [3, 4] [])
                { headers := some [("trace-id", "zzz"), ("foo", "bar")],
                  rest := () } : MergedResp Unit).headers k = some v) ∧
        (∀ k : String,
          objLookup (outboundHeaders (resolveIdentity [1, 2] [3, 4] [])) k = none →
            objLookup (applyOutbound (resolveIdentity [1, 2] [3, 4] [])
                { headers := some [("trace-id", "zzz"), ("foo", "bar")],
                  rest := () } : MergedResp Unit).headers k
              = objLookup (toOptHeaders [("trace-id", "zzz"), ("foo", "bar")]) k) ∧
        (applyOutbound (resolveIdentity [1, 2] [3, 4] [])
            { headers := some [("trace-id", "zzz"), ("foo", "bar")],
              rest := () } : MergedResp Unit).rest = ()) :=
  ⟨rfl,
    @middleware_overwrites_identity_headers Unit Unit Unit [1, 2] [3, 4]
      { headers := [], rest := () }
      { headers := some [("trace-id", "zzz"), ("foo", "bar")], rest := () }
      (applyOutbound (resolveIdentity [1, 2] [3, 4] [])
        { headers := some [("trace-id", "zzz"), ("foo", "bar")], rest := () }) rfl⟩

/-- Claim C8. For a syntactically valid 32-character hexadecimal string,
stripping ALL hyphens from `convertMaybeHexStringToUuid`'s output returns the
original string: the hyphenated form (whatever its grouping) contains exactly
the input's characters in order plus hyphens. -/
theorem convertMaybeHexStringToUuid_roundtrip (h : String) (hlen : h.length = 32)
    (hhex : ∀ c ∈ h.data, c ∈ hexChars) :
    Option.map stripHyphens (convertMaybeHexStringToUuid (some h)) = some h := by
  have hne : h ≠ "" := String_ne_empty_of_length_pos (by rw [hlen]; decide)
  have hdata : h.data.length = 32 := hlen
  show Option.map stripHyphens (if h = "" then none else some (formatHexAsUUID h)) = some h
  rw [if_neg hne]
  exact congrArg some (stripHyphens_formatHexAsUUID h hdata hhex)

/-- Witness for C8 at a concrete 32-character hexadecimal string. -/
theorem convertMaybeHexStringToUuid_roundtrip_witness :
    ("00112233445566778899aabbccddeeff" : String).length = 32 ∧
      (∀ c ∈ ("00112233445566778899aabbccddeeff" : String).data, c ∈ hexChars) ∧
      Option.map stripHyphens
          (convertMaybeHexStringToUuid (some "00112233445566778899aabbccddeeff"))
        = some "00112233445566778899aabbccddeeff" :=
  ⟨by decide, by decide,
    convertMaybeHexStringToUuid_roundtrip _ (by decide) (by decide)⟩

/-- Claim C9. A failure of the wrapped handler propagates through the
middleware unchanged: no catching, wrapping or translation, and no fallback
response. -/
theorem middleware_propagates_error (trace span : List Nat)
    (next : Event β → Except ε (Resp α)) (ev : Event β) (e : ε)
    (h : next ev = Except.error e) :
    middleware trace span next ev = Except.error e := by
  simp only [middleware, h]

/-- Witness for C9 with a handler that fails with the concrete error `7`. -/
theorem middleware_propagates_error_witness :
    (fun _ : Event Unit => (Except.error 7 : Except Nat (Resp Unit)))
        { headers := [], rest := () } = Except.error 7 ∧
      middleware [] [] (fun _ : Event Unit => (Except.error 7 : Except Nat (Resp Unit)))
        { headers := [], rest := () } = Except.error 7 :=
  ⟨rfl, middleware_propagates_error [] [] _ _ 7 rfl⟩

/-- Claim C10. Two invocations with equal inbound header maps, equal contents
of the two generated buffers, and handlers returning equal results produce
the same resolved bundle and the same final response: the middleware's output
depends on nothing else. -/
theorem middleware_deterministic (t1 t2 s1 s2 : List Nat) (ev1 ev2 : Event β)
    (n1 n2 : Event β → Except ε (Resp α))
    (ht : t1 = t2) (hsp : s1 = s2) (hh : ev1.headers = ev2.headers)
    (hn : n1 ev1 = n2 ev2) :
    resolveIdentity t1 s1 ev1.headers = resolveIdentity t2 s2 ev2.headers ∧
      middleware t1 s1 n1 ev1 = middleware t2 s2 n2 ev2 := by
  subst ht hsp
  constructor
  · rw [hh]
  · simp only [middleware, hh, hn]

/-- Witness for C10: two events that differ in their non-header part give the
same middleware output. -/
theorem middleware_deterministic_witness :
    ([0] : List Nat) = [0] ∧
      middleware [0] [1]
          (fun _ : Event Nat => (Except.ok { headers := none, rest := () } : Except Nat (Resp Unit)))
          { headers := [("request-id", "r")], rest := 5 } =
        middleware [0] [1]
          (fun _ : Event Nat => (Except.ok { headers := none, rest := () } : Except Nat (Resp Unit)))
          { headers := [("request-id", "r")], rest := 6 } :=
  ⟨rfl,
    (middleware_deterministic [0] [0] [1] [1]
      { headers := [("request-id", "r")], rest := 5 }
      { headers := [("request-id", "r")], rest := 6 } _ _ rfl rfl rfl rfl).2⟩
